import Mathlib

/-!
Shallow embedding of the mquery worker agent (src/daemon.py) and proofs
about its task handlers. The agent code is translated into pure Lean
functions: every handler is a state transformer over an explicit World
(the shared job store plus the index backend), which additionally emits a
trace of the store and backend calls it performs, and returns an optional
exception message (an exception unwinds the handler but the effects
performed before the raise persist, exactly as in the Python code).
Machine integers of the source are Python arbitrary-precision ints and are
modelled by Int; the floor division of Python is Int.fdiv.
-/

namespace Mquery

/-- Job record held by the shared store. Field names follow the job
snapshot used by daemon.py (status, raw_yara, taint and the counters).
The active_agents counter backs the agent_start_job and agent_finish_job
store contract. -/
structure Job where
  status : String
  raw_yara : String
  taint : Option String
  total_files : Int
  files_processed : Int
  files_in_progress : Int
  num_matches : Int
  active_agents : Int
deriving Repr, DecidableEq

/-- Match record written by add_match: file path, accumulated plugin
metadata and the names of the matching rules. -/
structure MatchInfo where
  file : String
  metadata : List (String × String)
  matching_rules : List String
deriving Repr, DecidableEq

/-- State of the shared store and of the backend, as observed by one
agent: job records by job id, backend iterator contents by handle,
remaining datasets to search by job id, appended match records by job id,
and the plugin configuration version counter. -/
structure World where
  jobs : String → Job
  iters : String → List String
  datasets : String → List String
  matchRecords : String → List MatchInfo
  pluginConfigVersion : Int

/-- Store and backend calls performed by a handler, recorded in order. -/
inductive Event where
  | getJob (job : String)
  | topology
  | initJobDatasets (group job : String) (ds : List String)
  | getNextSearchDataset (group job : String)
  | query (q : String) (taint : Option String) (dataset : String)
  | updateJobFiles (job : String) (count : Int)
  | agentStartJob (group job iterator : String)
  | agentContinueSearch (group job : String)
  | pop (iterator : String) (count : Int)
  | jobStartWork (job : String) (n : Int)
  | addMatch (job : String) (m : MatchInfo)
  | jobUpdateWork (job : String) (n : Int) (m : Int)
  | agentFinishJob (job : String)
  | failJob (job : String) (msg : String)
  | getPluginConfigVersion
  | reloadConfiguration (v : Int)
  | registerActiveAgent (group : String)
  | logError
deriving Repr, DecidableEq

/-- Pointwise update of one job record in the store. -/
def setJob (id : String) (f : Job → Job) (w : World) : World :=
  { w with jobs := fun k => if k = id then f (w.jobs k) else w.jobs k }

/-- Terminal statuses checked by the yara task handler
(daemon.py line 182). -/
def finalStatuses : List String := ["cancelled", "failed", "done"]

/-- Modelled from the spec: store operation update_job_files, an atomic
increment of total_files (the db module is not under src). -/
def applyUpdateJobFiles (id : String) (count : Int) (w : World) : World :=
  setJob id (fun j => { j with total_files := j.total_files + count }) w

/-- Modelled from the spec: store operation init_job_datasets, which is
idempotent, records the datasets remaining for the job and transitions a
new job to processing. -/
def applyInitJobDatasets (id : String) (ds : List String) (w : World) : World :=
  let w1 := setJob id
    (fun j => if j.status = "new" then { j with status := "processing" } else j) w
  { w1 with datasets := fun k => if k = id then ds else w1.datasets k }

/-- Modelled from the spec: store operation agent_start_job, which
enqueues a yara task (recorded in the trace) and increments the
active-agent count of the job. -/
def applyAgentStartJob (id : String) (w : World) : World :=
  setJob id (fun j => { j with active_agents := j.active_agents + 1 }) w

/-- Modelled from the spec: store operation job_start_work, an atomic
increment of files_in_progress. -/
def applyJobStartWork (id : String) (n : Int) (w : World) : World :=
  setJob id (fun j => { j with files_in_progress := j.files_in_progress + n }) w

/-- Modelled from the spec: store operation job_update_work, atomically
moving n files from in-progress to processed and adding the new match
count. -/
def applyJobUpdateWork (id : String) (n : Int) (m : Int) (w : World) : World :=
  setJob id (fun j =>
    { j with files_in_progress := j.files_in_progress - n,
             files_processed := j.files_processed + n,
             num_matches := j.num_matches + m }) w

/-- Modelled from the spec: store operation agent_finish_job, which
decrements the active-agent count and, when it reaches zero with all
files processed, flips the status to done. -/
def applyAgentFinishJob (id : String) (w : World) : World :=
  setJob id (fun j =>
    let j1 := { j with active_agents := j.active_agents - 1 }
    if j1.active_agents = 0 ∧ j1.files_processed = j1.total_files then
      { j1 with status := "done" }
    else j1) w

/-- Modelled from the spec: store operation fail_job, setting the status
to failed (the recorded message is kept in the trace). -/
def applyFailJob (id : String) (w : World) : World :=
  setJob id (fun j => { j with status := "failed" }) w

/-- Modelled from the spec: store operation add_match, appending a match
record; a no-op when the job is already terminal. -/
def applyAddMatch (id : String) (m : MatchInfo) (w : World) : World :=
  if finalStatuses.contains (w.jobs id).status then w
  else { w with matchRecords := fun k => if k = id then w.matchRecords k ++ [m] else w.matchRecords k }

/-- Constant MIN_BATCH_SIZE of daemon.py line 187. -/
def MIN_BATCH_SIZE : Int := 10

/-- Constant MAX_BATCH_SIZE of daemon.py line 188. -/
def MAX_BATCH_SIZE : Int := 500

/-- Adaptive batch size computation of the yara task handler, daemon.py
lines 190 to 202, on a job snapshot: start from MAX_BATCH_SIZE, clamp by
the files already taken, clamp by a quarter of the files left (Python
floor division), and finally raise to at least MIN_BATCH_SIZE. -/
def batchSize (total_files files_processed files_in_progress : Int) : Int :=
  let taken_files := files_processed + files_in_progress
  let batch_size := MAX_BATCH_SIZE
  let batch_size := min batch_size taken_files
  let batch_size := min batch_size (Int.fdiv (total_files - taken_files) 4)
  max batch_size MIN_BATCH_SIZE

/-- Successive batch sizes computed by a single agent that always
receives exactly the files it asks for and finishes each batch before
computing the next one: files_processed grows by the previous batch and
files_in_progress is zero at every computation. -/
def batchTrace : Nat → Int → Int → List Int
  | 0, _, _ => []
  | Nat.succ n, total, processed =>
    let b := batchSize total processed 0
    b :: batchTrace n total (processed + b)

/-- Result of a backend query call: candidate file count and the iterator
handle minted by the backend. -/
structure QueryResult where
  file_count : Int
  iterator : String
deriving Repr, DecidableEq

/-- Outcome of running the compiled rule on one file: the rule.match call
either returns the list of matching rule names (empty means no match,
which is falsy in the Python truthiness test), raises a yara engine
error, or raises a file-not-found error. -/
inductive ScanOutcome where
  | result (rules : List String)
  | yaraError
  | fileNotFound
deriving Repr, DecidableEq

/-- An instantiated metadata plugin: its name and its run method, which
receives a file path and the accumulated metadata and either returns
extra fields or raises. -/
structure MetadataPlugin where
  name : String
  run : String → List (String × String) → Except String (List (String × String))

/-- Environment of one agent execution: the deterministic outcomes of the
external collaborators (backend topology and query calls, the yara
compiler and matcher, the plugin classes and the json decoding of the
yara task payload), fixed per run. -/
structure Env where
  topologyResult : Except String (List String)
  queryResult : String → Option String → String → Except String QueryResult
  scan : String → ScanOutcome
  compileYara : String → Except String Unit
  parseCombine : String → String
  jsonLoads : String → String × String
  metadataPlugins : List (Except String MetadataPlugin)

/-- Python dict.update on the metadata accumulator: keys of the update
replace existing keys and are appended. -/
def dictUpdate (md upd : List (String × String)) : List (String × String) :=
  md.filter (fun kv => (upd.find? (fun kv2 => kv2.1 == kv.1)).isNone) ++ upd

/-- Embedding of Agent.__update_metadata, daemon.py lines 136 to 153:
run every active plugin in order on the matched file, swallowing plugin
exceptions, then append a MatchInfo record via add_match. -/
def updateMetadata (plugins : List MetadataPlugin) (job file : String)
    (rules : List String) (w : World) : World × List Event :=
  let metadata := plugins.foldl (fun md p =>
    match p.run file md with
    | Except.ok extracted => dictUpdate md extracted
    | Except.error _ => md) []
  (applyAddMatch job (MatchInfo.mk file metadata rules) w,
   [Event.addMatch job (MatchInfo.mk file metadata rules)])

/-- Embedding of the per-file loop of Agent.__execute_yara, daemon.py
lines 159 to 172: for each file run the match; a nonempty match list
increments the match counter and records metadata, while yara errors and
missing files are logged and skipped. Returns the final world, the
emitted events and the match counter. -/
def scanLoop (env : Env) (plugins : List MetadataPlugin) (job : String) :
    List String → World → World × List Event × Int
  | [], w => (w, [], 0)
  | sample :: rest, w =>
    match env.scan sample with
    | ScanOutcome.result rules =>
      if rules.isEmpty then scanLoop env plugins job rest w
      else
        let r1 := updateMetadata plugins job sample rules w
        let r2 := scanLoop env plugins job rest r1.1
        (r2.1, r1.2 ++ r2.2.1, r2.2.2 + 1)
    | ScanOutcome.yaraError => scanLoop env plugins job rest w
    | ScanOutcome.fileNotFound => scanLoop env plugins job rest w

/-- Embedding of Agent.__execute_yara, daemon.py lines 155 to 174:
compile the rule (a compile failure raises out of the handler), report
the batch as started, scan every file of the batch, and report the batch
as done together with the number of new matches. The compile cache is
semantically transparent since compilation is a pure function of the
rule text. -/
def executeYara (env : Env) (plugins : List MetadataPlugin) (job : String)
    (files : List String) (w : World) : World × List Event × Option String :=
  match env.compileYara (w.jobs job).raw_yara with
  | Except.error e => (w, [], some e)
  | Except.ok _ =>
    let w1 := applyJobStartWork job (files.length : Int) w
    let r2 := scanLoop env plugins job files w1
    let w3 := applyJobUpdateWork job (files.length : Int) r2.2.2 r2.1
    (w3, [Event.jobStartWork job (files.length : Int)] ++ r2.2.1 ++
         [Event.jobUpdateWork job (files.length : Int) r2.2.2], none)

/-- Embedding of Agent.__yara_task, daemon.py lines 176 to 215: drop the
task when the job is terminal; otherwise compute the adaptive batch size,
pop that many files from the iterator (modelled from the spec as take and
drop on the backend cursor contents), re-enqueue the task when the
iterator is not yet empty, scan the popped files when there are any, and
finally re-read the job and finish the agent participation when all files
are processed. -/
def yaraTask (env : Env) (plugins : List MetadataPlugin) (group : String)
    (w : World) (job iterator : String) : World × List Event × Option String :=
  let j := w.jobs job
  if finalStatuses.contains j.status then
    (w, [Event.getJob job], none)
  else
    let batch_size := batchSize j.total_files j.files_processed j.files_in_progress
    let files := (w.iters iterator).take batch_size.toNat
    let rest := (w.iters iterator).drop batch_size.toNat
    let iterator_empty := rest.isEmpty
    let w1 := { w with iters := fun k => if k = iterator then rest else w.iters k }
    let ev1 := [Event.getJob job, Event.pop iterator batch_size]
    let r2 :=
      if !iterator_empty then
        (applyAgentStartJob job w1, ev1 ++ [Event.agentStartJob group job iterator])
      else (w1, ev1)
    let r3 := if !files.isEmpty then executeYara env plugins job files r2.1
              else (r2.1, [], none)
    match r3.2.2 with
    | some e => (r3.1, r2.2 ++ r3.2.1, some e)
    | none =>
      let j2 := r3.1.jobs job
      if j2.status = "processing" ∧ j2.files_processed = j2.total_files then
        (applyAgentFinishJob job r3.1,
         r2.2 ++ r3.2.1 ++ [Event.getJob job, Event.agentFinishJob job], none)
      else (r3.1, r2.2 ++ r3.2.1 ++ [Event.getJob job], none)

/-- Embedding of Agent.__search_task, daemon.py lines 61 to 105: return
on a cancelled job; on a new job fetch the backend topology (an error
raises) and initialize the datasets of the job; claim the next dataset
(returning when none remain); query the backend with the combined rules
(an error raises); then add the file count to the job, enqueue a yara
task for the iterator and re-enqueue a search task for the job. -/
def searchTask (env : Env) (group : String) (w : World) (job_id : String) :
    World × List Event × Option String :=
  let job := w.jobs job_id
  if job.status = "cancelled" then
    (w, [Event.getJob job_id], none)
  else
    let r1 : (World × List Event) × Option String :=
      if job.status = "new" then
        match env.topologyResult with
        | Except.error e => ((w, [Event.getJob job_id, Event.topology]), some e)
        | Except.ok ds =>
          ((applyInitJobDatasets job_id ds w,
            [Event.getJob job_id, Event.topology,
             Event.initJobDatasets group job_id ds]), none)
      else ((w, [Event.getJob job_id]), none)
    match r1.2 with
    | some e => (r1.1.1, r1.1.2, some e)
    | none =>
      let w1 := r1.1.1
      let ev1 := r1.1.2
      match w1.datasets job_id with
      | [] => (w1, ev1 ++ [Event.getNextSearchDataset group job_id], none)
      | dataset :: restds =>
        let w2 := { w1 with datasets := fun k => if k = job_id then restds else w1.datasets k }
        let parsed := env.parseCombine job.raw_yara
        match env.queryResult parsed job.taint dataset with
        | Except.error e =>
          (w2, ev1 ++ [Event.getNextSearchDataset group job_id,
                       Event.query parsed job.taint dataset], some e)
        | Except.ok qr =>
          let w3 := applyUpdateJobFiles job_id qr.file_count w2
          let w4 := applyAgentStartJob job_id w3
          (w4, ev1 ++ [Event.getNextSearchDataset group job_id,
                       Event.query parsed job.taint dataset,
                       Event.updateJobFiles job_id qr.file_count,
                       Event.agentStartJob group job_id qr.iterator,
                       Event.agentContinueSearch group job_id], none)

/-- Local state of one agent: the cached plugin configuration version and
the instantiated active plugins. -/
structure AgentSt where
  plugin_config_version : Int
  active_plugins : List MetadataPlugin

/-- Embedding of Agent.__load_plugins, daemon.py lines 107 to 118: cache
the stored configuration version and instantiate every registered plugin
class, skipping those whose construction fails. -/
def loadPlugins (env : Env) (w : World) : AgentSt :=
  { plugin_config_version := w.pluginConfigVersion,
    active_plugins := env.metadataPlugins.filterMap Except.toOption }

/-- Embedding of Agent.__initialize_agent, daemon.py lines 120 to 134:
reload the plugins and re-register the agent record with the store.
Modelled from the spec: register_active_agent does not change the stored
version when the plugin spec is unchanged, as it is within one run. -/
def initializeAgent (env : Env) (group : String) (w : World) : AgentSt × List Event :=
  (loadPlugins env w, [Event.getPluginConfigVersion, Event.registerActiveAgent group])

/-- Values of the TaskType enumeration. Modelled from the spec: the db
module declaring the enumeration is not under src; the type of a task is
represented by its tag string with the three declared members. -/
def TaskTypeRELOAD : String := "reload"

/-- Tag of a search task. Modelled from the spec, as TaskTypeRELOAD. -/
def TaskTypeSEARCH : String := "search"

/-- Tag of a yara task. Modelled from the spec, as TaskTypeRELOAD. -/
def TaskTypeYARA : String := "yara"

/-- A task delivered by agent_get_task: a type tag and a string payload
(a job id for search tasks, a json object with the job and the iterator
for yara tasks, decoded by Env.jsonLoads). -/
structure AgentTask where
  ttype : String
  data : String
deriving Repr, DecidableEq

/-- Embedding of Agent.__process_task, daemon.py lines 217 to 272: a
reload task re-checks the version and either logs at error level and
returns (version unchanged) or propagates the reload and reinitializes;
search and yara tasks run their handler inside the exception boundary
that marks the agent participation finished and fails the job on any
raise; any other task type raises a RuntimeError out of the dispatcher. -/
def processTask (env : Env) (group : String) (a : AgentSt) (w : World)
    (task : AgentTask) : Except String (AgentSt × World × List Event) :=
  if task.ttype = TaskTypeRELOAD then
    if a.plugin_config_version = w.pluginConfigVersion then
      Except.ok (a, w, [Event.getPluginConfigVersion, Event.logError])
    else
      let (a1, ev1) := initializeAgent env group w
      Except.ok (a1, w,
        [Event.getPluginConfigVersion,
         Event.reloadConfiguration a.plugin_config_version] ++ ev1)
  else if task.ttype = TaskTypeSEARCH then
    let job := task.data
    let r := searchTask env group w job
    match r.2.2 with
    | none => Except.ok (a, r.1, r.2.1)
    | some e =>
      Except.ok (a, applyFailJob job (applyAgentFinishJob job r.1),
        r.2.1 ++ [Event.agentFinishJob job, Event.failJob job e])
  else if task.ttype = TaskTypeYARA then
    let jd := env.jsonLoads task.data
    let r := yaraTask env a.active_plugins group w jd.1 jd.2
    match r.2.2 with
    | none => Except.ok (a, r.1, r.2.1)
    | some e =>
      Except.ok (a, applyFailJob jd.1 (applyAgentFinishJob jd.1 r.1),
        r.2.1 ++ [Event.agentFinishJob jd.1, Event.failJob jd.1 e])
  else Except.error "Unsupported queue"

/-! Helper lemmas shared by the claim proofs. -/

theorem setJob_jobs (id : String) (f : Job → Job) (w : World) (k : String) :
    (setJob id f w).jobs k = if k = id then f (w.jobs k) else w.jobs k := rfl

@[simp] theorem setJob_jobs_same (id : String) (f : Job → Job) (w : World) :
    (setJob id f w).jobs id = f (w.jobs id) := by
  simp [setJob_jobs]

@[simp] theorem setJob_iters (id : String) (f : Job → Job) (w : World) :
    (setJob id f w).iters = w.iters := rfl

@[simp] theorem setJob_datasets (id : String) (f : Job → Job) (w : World) :
    (setJob id f w).datasets = w.datasets := rfl

@[simp] theorem setJob_matchRecords (id : String) (f : Job → Job) (w : World) :
    (setJob id f w).matchRecords = w.matchRecords := rfl

@[simp] theorem setJob_pluginConfigVersion (id : String) (f : Job → Job) (w : World) :
    (setJob id f w).pluginConfigVersion = w.pluginConfigVersion := rfl

theorem batchSize_def_eq (total p ip : Int) :
    batchSize total p ip =
      max (min (min 500 (p + ip)) (Int.fdiv (total - (p + ip)) 4)) 10 := rfl

theorem le_batchSize (total p ip : Int) : 10 ≤ batchSize total p ip :=
  le_max_right _ _

theorem batchSize_le (total p ip : Int) : batchSize total p ip ≤ 500 := by
  rw [batchSize_def_eq]
  exact max_le ((min_le_left _ _).trans (min_le_left _ _)) (by norm_num)

theorem batchSize_zero_taken (total p ip : Int) (h : p + ip = 0) :
    batchSize total p ip = 10 := by
  rw [batchSize_def_eq, h]
  have h1 : min (min (500 : Int) 0) (Int.fdiv (total - 0) 4) ≤ 0 :=
    le_trans (min_le_left _ _) (min_le_right _ _)
  exact max_eq_right (le_trans h1 (by norm_num))

/-- C1: for every job snapshot, the computed batch size equals
max of MIN_BATCH and the minimum of MAX_BATCH, the taken files, and a
quarter of the remaining files; it always lies between 10 and 500, and a
fresh job with no file processed or in progress gets exactly 10. -/
theorem adaptive_batch_size_c1 :
    (∀ total p ip : Int,
      batchSize total p ip =
        max 10 (min 500 (min (p + ip) (Int.fdiv (total - (p + ip)) 4)))) ∧
    (∀ total p ip : Int,
      10 ≤ batchSize total p ip ∧ batchSize total p ip ≤ 500) ∧
    (∀ total : Int, batchSize total 0 0 = 10) := by
  refine ⟨fun total p ip => ?_, fun total p ip => ⟨le_batchSize total p ip, batchSize_le total p ip⟩,
    fun total => batchSize_zero_taken total 0 0 (by norm_num)⟩
  rw [batchSize_def_eq, min_assoc, max_comm]

/-- C2: a yara task whose job snapshot has a terminal status returns
immediately: the store and backend trace is the single job read, no
exception is raised and the whole world is unchanged. -/
theorem yara_task_terminal_noop_c2 (env : Env) (plugins : List MetadataPlugin)
    (group : String) (w : World) (job iterator : String)
    (h : finalStatuses.contains (w.jobs job).status = true) :
    yaraTask env plugins group w job iterator = (w, [Event.getJob job], none) := by
  simp only [yaraTask, h, if_true]

/-- Concrete environment used by witness instantiations. -/
def sampleEnv : Env where
  topologyResult := Except.ok ["d1"]
  queryResult := fun _ _ _ => Except.ok ⟨0, "it0"⟩
  scan := fun _ => ScanOutcome.result []
  compileYara := fun _ => Except.ok ()
  parseCombine := fun s => s
  jsonLoads := fun s => (s, s)
  metadataPlugins := []

/-- Concrete fresh job used by witness instantiations. -/
def sampleJob : Job where
  status := "new"
  raw_yara := "r"
  taint := none
  total_files := 0
  files_processed := 0
  files_in_progress := 0
  num_matches := 0
  active_agents := 0

/-- Concrete world mapping every job id to sampleJob. -/
def sampleWorld : World where
  jobs := fun _ => sampleJob
  iters := fun _ => []
  datasets := fun _ => []
  matchRecords := fun _ => []
  pluginConfigVersion := 0

/-- Concrete world whose jobs are all done. -/
def doneWorld : World :=
  { sampleWorld with jobs := fun _ => { sampleJob with status := "done" } }

theorem yara_task_terminal_noop_c2_witness :
    yaraTask sampleEnv [] "g" doneWorld "j" "it" =
      (doneWorld, [Event.getJob "j"], none) :=
  yara_task_terminal_noop_c2 sampleEnv [] "g" doneWorld "j" "it" (by rfl)

/-- C6 counterexample: on a 1000 file job with single-agent idealized
batching, the seventh computed batch is 170 and not 320, so the traced
sequence of the claim is not the one the code computes. -/
theorem batch_trace_c6_counterexample :
    batchTrace 8 1000 0 ≠ [10, 10, 20, 40, 80, 160, 320, 360] := by decide

theorem batchTrace_mem_bounds (n : Nat) :
    ∀ (total p b : Int), b ∈ batchTrace n total p → 10 ≤ b ∧ b ≤ 500 := by
  induction n with
  | zero => intro total p b hb; simp [batchTrace] at hb
  | succ m ih =>
    intro total p b hb
    simp only [batchTrace, List.mem_cons] at hb
    rcases hb with hb | hb
    · subst hb; exact ⟨le_batchSize _ _ _, batchSize_le _ _ _⟩
    · exact ih total (p + batchSize total p 0) b hb

/-- C6 amended: under the same idealized single-agent assumption on a
1000 file job, the successive computed batch sizes start
10, 10, 20, 40, 80, 160, 170, 127 (the quarter-of-remaining cap
overtakes the ramp-up from the seventh batch on), and every computed
batch lies between 10 and 500. -/
theorem batch_trace_c6_amended :
    batchTrace 8 1000 0 = [10, 10, 20, 40, 80, 160, 170, 127] ∧
    (∀ (n : Nat) (total p b : Int), b ∈ batchTrace n total p →
      10 ≤ b ∧ b ≤ 500) := by
  exact ⟨by decide, fun n total p b hb => batchTrace_mem_bounds n total p b hb⟩

theorem batch_trace_c6_amended_witness : 10 ≤ (10 : Int) ∧ (10 : Int) ≤ 500 :=
  batch_trace_c6_amended.2 8 1000 0 10 (by decide)

/-- C8 counterexample: a job of 5 files with nothing taken satisfies
0 < total_files < MIN_BATCH, yet the computed batch size is 10, not the
total file count of the claim. -/
theorem small_job_c8_counterexample :
    (0 : Int) < 5 ∧ (5 : Int) < 10 ∧ batchSize 5 0 0 ≠ 5 := by decide

/-- A file counts as a match exactly when its scan outcome is a nonempty
list of matching rules. -/
def isMatchOutcome (env : Env) (s : String) : Bool :=
  match env.scan s with
  | ScanOutcome.result rules => !rules.isEmpty
  | ScanOutcome.yaraError => false
  | ScanOutcome.fileNotFound => false

@[simp] theorem updateMetadata_jobs (plugins : List MetadataPlugin)
    (job file : String) (rules : List String) (w : World) :
    (updateMetadata plugins job file rules w).1.jobs = w.jobs := by
  simp only [updateMetadata, applyAddMatch]
  split <;> rfl

@[simp] theorem applyUpdateJobFiles_jobs_same (id : String) (c : Int) (w : World) :
    (applyUpdateJobFiles id c w).jobs id =
      { w.jobs id with total_files := (w.jobs id).total_files + c } := by
  simp [applyUpdateJobFiles]

@[simp] theorem applyAgentStartJob_jobs_same (id : String) (w : World) :
    (applyAgentStartJob id w).jobs id =
      { w.jobs id with active_agents := (w.jobs id).active_agents + 1 } := by
  simp [applyAgentStartJob]

@[simp] theorem applyJobStartWork_jobs_same (id : String) (n : Int) (w : World) :
    (applyJobStartWork id n w).jobs id =
      { w.jobs id with files_in_progress := (w.jobs id).files_in_progress + n } := by
  simp [applyJobStartWork]

@[simp] theorem applyJobUpdateWork_jobs_same (id : String) (n m : Int) (w : World) :
    (applyJobUpdateWork id n m w).jobs id =
      { w.jobs id with files_in_progress := (w.jobs id).files_in_progress - n,
                       files_processed := (w.jobs id).files_processed + n,
                       num_matches := (w.jobs id).num_matches + m } := by
  simp [applyJobUpdateWork]

@[simp] theorem applyFailJob_jobs_same (id : String) (w : World) :
    (applyFailJob id w).jobs id = { w.jobs id with status := "failed" } := by
  simp [applyFailJob]

@[simp] theorem applyInitJobDatasets_jobs_same (id : String) (ds : List String)
    (w : World) :
    (applyInitJobDatasets id ds w).jobs id =
      if (w.jobs id).status = "new" then { w.jobs id with status := "processing" }
      else w.jobs id := by
  simp [applyInitJobDatasets]

@[simp] theorem applyInitJobDatasets_iters (id : String) (ds : List String)
    (w : World) : (applyInitJobDatasets id ds w).iters = w.iters := rfl

@[simp] theorem applyUpdateJobFiles_iters (id : String) (c : Int) (w : World) :
    (applyUpdateJobFiles id c w).iters = w.iters := rfl

@[simp] theorem applyAgentStartJob_iters (id : String) (w : World) :
    (applyAgentStartJob id w).iters = w.iters := rfl

@[simp] theorem applyJobStartWork_iters (id : String) (n : Int) (w : World) :
    (applyJobStartWork id n w).iters = w.iters := rfl

@[simp] theorem applyJobUpdateWork_iters (id : String) (n m : Int) (w : World) :
    (applyJobUpdateWork id n m w).iters = w.iters := rfl

@[simp] theorem applyAgentFinishJob_iters (id : String) (w : World) :
    (applyAgentFinishJob id w).iters = w.iters := rfl

theorem scanLoop_jobs (env : Env) (ps : List MetadataPlugin) (job : String) :
    ∀ (files : List String) (w : World),
      (scanLoop env ps job files w).1.jobs = w.jobs := by
  intro files
  induction files with
  | nil => intro w; rfl
  | cons s rest ih =>
    intro w
    simp only [scanLoop]
    cases hscan : env.scan s with
    | result rules =>
      dsimp only
      cases hr : rules.isEmpty with
      | true => simpa using ih w
      | false => simp [ih]
    | yaraError => exact ih w
    | fileNotFound => exact ih w

@[simp] theorem updateMetadata_iters (plugins : List MetadataPlugin)
    (job file : String) (rules : List String) (w : World) :
    (updateMetadata plugins job file rules w).1.iters = w.iters := by
  simp only [updateMetadata, applyAddMatch]
  split <;> rfl

theorem scanLoop_iters (env : Env) (ps : List MetadataPlugin) (job : String) :
    ∀ (files : List String) (w : World),
      (scanLoop env ps job files w).1.iters = w.iters := by
  intro files
  induction files with
  | nil => intro w; rfl
  | cons s rest ih =>
    intro w
    simp only [scanLoop]
    cases hscan : env.scan s with
    | result rules =>
      dsimp only
      cases hr : rules.isEmpty with
      | true => simpa using ih w
      | false => simp [ih]
    | yaraError => exact ih w
    | fileNotFound => exact ih w

theorem scanLoop_count (env : Env) (ps : List MetadataPlugin) (job : String) :
    ∀ (files : List String) (w : World),
      (scanLoop env ps job files w).2.2 =
        ((List.countP (isMatchOutcome env) files : Nat) : Int) := by
  intro files
  induction files with
  | nil => intro w; rfl
  | cons s rest ih =>
    intro w
    simp only [scanLoop, List.countP_cons]
    cases hscan : env.scan s with
    | result rules =>
      dsimp only
      cases hr : rules.isEmpty with
      | true => simp [ih, isMatchOutcome, hscan, hr]
      | false => simp [ih, isMatchOutcome, hscan, hr]
    | yaraError => simp [ih, isMatchOutcome, hscan]
    | fileNotFound => simp [ih, isMatchOutcome, hscan]

/-- C4: when the rule compiles, a scan batch never raises, every file
with a yara or file-not-found error contributes zero to the match count
(the count is exactly the number of files whose match list is nonempty),
job_update_work is called with the full batch length and a match
increment of at most that length, and the batch preserves the invariant
num_matches at most files_processed. -/
theorem per_file_error_isolation_c4 (env : Env) (ps : List MetadataPlugin)
    (job : String) (files : List String) (w : World)
    (h : env.compileYara (w.jobs job).raw_yara = Except.ok ()) :
    (executeYara env ps job files w).2.2 = none ∧
    (∃ m : Int, 0 ≤ m ∧ m ≤ (files.length : Int) ∧
      m = ((List.countP (isMatchOutcome env) files : Nat) : Int) ∧
      (executeYara env ps job files w).2.1 =
        [Event.jobStartWork job (files.length : Int)] ++
          (scanLoop env ps job files
            (applyJobStartWork job (files.length : Int) w)).2.1 ++
          [Event.jobUpdateWork job (files.length : Int) m] ∧
      ((executeYara env ps job files w).1.jobs job).num_matches =
        (w.jobs job).num_matches + m ∧
      ((executeYara env ps job files w).1.jobs job).files_processed =
        (w.jobs job).files_processed + (files.length : Int)) ∧
    ((w.jobs job).num_matches ≤ (w.jobs job).files_processed →
      ((executeYara env ps job files w).1.jobs job).num_matches ≤
        ((executeYara env ps job files w).1.jobs job).files_processed) := by
  have hcount := scanLoop_count env ps job files
    (applyJobStartWork job (files.length : Int) w)
  have hjobs := scanLoop_jobs env ps job files
    (applyJobStartWork job (files.length : Int) w)
  have hm0 : (0 : Int) ≤ ((List.countP (isMatchOutcome env) files : Nat) : Int) :=
    Int.natCast_nonneg _
  have hmle : ((List.countP (isMatchOutcome env) files : Nat) : Int) ≤
      (files.length : Int) :=
    Int.toNat_le.mp (by simpa using List.countP_le_length (isMatchOutcome env) (l := files))
  have hnum : ((executeYara env ps job files w).1.jobs job).num_matches =
      (w.jobs job).num_matches + ((List.countP (isMatchOutcome env) files : Nat) : Int) := by
    simp only [executeYara, h, applyJobUpdateWork_jobs_same]
    rw [hjobs, hcount]
    simp only [applyJobStartWork_jobs_same]
  have hproc : ((executeYara env ps job files w).1.jobs job).files_processed =
      (w.jobs job).files_processed + (files.length : Int) := by
    simp only [executeYara, h, applyJobUpdateWork_jobs_same]
    rw [hjobs]
    simp only [applyJobStartWork_jobs_same]
  refine ⟨?_, ?_, ?_⟩
  · simp only [executeYara, h]
  · exact ⟨((List.countP (isMatchOutcome env) files : Nat) : Int), hm0, hmle, rfl,
      by simp only [executeYara, h]; rw [hcount], hnum, hproc⟩
  · intro hinv
    rw [hnum, hproc]
    exact add_le_add hinv hmle

theorem per_file_error_isolation_c4_witness :
    ((executeYara sampleEnv [] "j" ["a"] sampleWorld).1.jobs "j").num_matches ≤
      ((executeYara sampleEnv [] "j" ["a"] sampleWorld).1.jobs "j").files_processed :=
  (per_file_error_isolation_c4 sampleEnv [] "j" ["a"] sampleWorld rfl).2.2 (by decide)

/-- C3: the dispatcher catches every exception of the search and yara
handlers: whatever the handler outcome, the dispatcher returns normally,
and on a handler exception it calls agent_finish_job on the job and then
fail_job with the stringified exception; a task whose type is none of
reload, search and yara makes the dispatcher raise a RuntimeError. -/
theorem dispatcher_exception_boundary_c3 :
    (∀ (env : Env) (group : String) (a : AgentSt) (w : World) (task : AgentTask),
      task.ttype = TaskTypeSEARCH →
      (∀ w1 ev, searchTask env group w task.data = (w1, ev, none) →
        processTask env group a w task = Except.ok (a, w1, ev)) ∧
      (∀ w1 ev e, searchTask env group w task.data = (w1, ev, some e) →
        processTask env group a w task =
          Except.ok (a, applyFailJob task.data (applyAgentFinishJob task.data w1),
            ev ++ [Event.agentFinishJob task.data, Event.failJob task.data e]))) ∧
    (∀ (env : Env) (group : String) (a : AgentSt) (w : World) (task : AgentTask),
      task.ttype = TaskTypeYARA →
      (∀ w1 ev, yaraTask env a.active_plugins group w
          (env.jsonLoads task.data).1 (env.jsonLoads task.data).2 = (w1, ev, none) →
        processTask env group a w task = Except.ok (a, w1, ev)) ∧
      (∀ w1 ev e, yaraTask env a.active_plugins group w
          (env.jsonLoads task.data).1 (env.jsonLoads task.data).2 = (w1, ev, some e) →
        processTask env group a w task =
          Except.ok (a,
            applyFailJob (env.jsonLoads task.data).1
              (applyAgentFinishJob (env.jsonLoads task.data).1 w1),
            ev ++ [Event.agentFinishJob (env.jsonLoads task.data).1,
                   Event.failJob (env.jsonLoads task.data).1 e]))) ∧
    (∀ (env : Env) (group : String) (a : AgentSt) (w : World) (task : AgentTask),
      task.ttype ≠ TaskTypeRELOAD → task.ttype ≠ TaskTypeSEARCH →
      task.ttype ≠ TaskTypeYARA →
      processTask env group a w task = Except.error "Unsupported queue") := by
  refine ⟨?_, ?_, ?_⟩
  · intro env group a w task h
    constructor
    · intro w1 ev hres
      simp [processTask, h, TaskTypeRELOAD, TaskTypeSEARCH, hres]
    · intro w1 ev e hres
      simp [processTask, h, TaskTypeRELOAD, TaskTypeSEARCH, hres]
  · intro env group a w task h
    constructor
    · intro w1 ev hres
      simp [processTask, h, TaskTypeRELOAD, TaskTypeSEARCH, TaskTypeYARA, hres]
    · intro w1 ev e hres
      simp [processTask, h, TaskTypeRELOAD, TaskTypeSEARCH, TaskTypeYARA, hres]
  · intro env group a w task h1 h2 h3
    simp only [processTask, if_neg h1, if_neg h2, if_neg h3]

/-- Agent state with no plugins and cached version zero, for witnesses. -/
def agent0 : AgentSt where
  plugin_config_version := 0
  active_plugins := []

/-- Environment whose backend query always fails, for witnesses of the
exception path. -/
def errorEnv : Env :=
  { sampleEnv with queryResult := fun _ _ _ => Except.error "boom" }

/-- World whose jobs are processing with one dataset left, for witnesses. -/
def processingWorld : World :=
  { sampleWorld with
      jobs := fun _ => { sampleJob with status := "processing" },
      datasets := fun _ => ["d1"] }

theorem dispatcher_exception_boundary_c3_witness :
    (processTask sampleEnv "g" agent0 sampleWorld (AgentTask.mk "search" "j") =
      Except.ok (agent0, (searchTask sampleEnv "g" sampleWorld "j").1,
        (searchTask sampleEnv "g" sampleWorld "j").2.1)) ∧
    (processTask errorEnv "g" agent0 processingWorld (AgentTask.mk "search" "j") =
      Except.ok (agent0,
        applyFailJob "j" (applyAgentFinishJob "j"
          (searchTask errorEnv "g" processingWorld "j").1),
        (searchTask errorEnv "g" processingWorld "j").2.1 ++
          [Event.agentFinishJob "j", Event.failJob "j" "boom"])) ∧
    (processTask sampleEnv "g" agent0 sampleWorld (AgentTask.mk "bogus" "x") =
      Except.error "Unsupported queue") := by
  refine ⟨?_, ?_, ?_⟩
  · exact (dispatcher_exception_boundary_c3.1 sampleEnv "g" agent0 sampleWorld
      (AgentTask.mk "search" "j") rfl).1 _ _ rfl
  · exact (dispatcher_exception_boundary_c3.1 errorEnv "g" agent0 processingWorld
      (AgentTask.mk "search" "j") rfl).2 _ _ "boom" rfl
  · exact dispatcher_exception_boundary_c3.2.2 sampleEnv "g" agent0 sampleWorld
      (AgentTask.mk "bogus" "x") (by decide) (by decide) (by decide)

/-- C5: inside one successful search task the store calls are ordered:
update_job_files with the reported file count comes first, then
agent_start_job enqueueing the yara task that carries the iterator, and
only after that agent_continue_search re-enqueueing a search task; this
holds both for a processing job and for a new job initialized from the
backend topology. -/
theorem search_task_ordering_c5 :
    (∀ (env : Env) (group : String) (w : World) (job_id dataset : String)
        (restds : List String) (qr : QueryResult),
      (w.jobs job_id).status = "processing" →
      w.datasets job_id = dataset :: restds →
      env.queryResult (env.parseCombine (w.jobs job_id).raw_yara)
        (w.jobs job_id).taint dataset = Except.ok qr →
      (searchTask env group w job_id).2.1 =
        [Event.getJob job_id, Event.getNextSearchDataset group job_id,
         Event.query (env.parseCombine (w.jobs job_id).raw_yara)
           (w.jobs job_id).taint dataset,
         Event.updateJobFiles job_id qr.file_count,
         Event.agentStartJob group job_id qr.iterator,
         Event.agentContinueSearch group job_id] ∧
      (searchTask env group w job_id).2.2 = none) ∧
    (∀ (env : Env) (group : String) (w : World) (job_id dataset : String)
        (restds : List String) (qr : QueryResult),
      (w.jobs job_id).status = "new" →
      env.topologyResult = Except.ok (dataset :: restds) →
      env.queryResult (env.parseCombine (w.jobs job_id).raw_yara)
        (w.jobs job_id).taint dataset = Except.ok qr →
      (searchTask env group w job_id).2.1 =
        [Event.getJob job_id, Event.topology,
         Event.initJobDatasets group job_id (dataset :: restds),
         Event.getNextSearchDataset group job_id,
         Event.query (env.parseCombine (w.jobs job_id).raw_yara)
           (w.jobs job_id).taint dataset,
         Event.updateJobFiles job_id qr.file_count,
         Event.agentStartJob group job_id qr.iterator,
         Event.agentContinueSearch group job_id] ∧
      (searchTask env group w job_id).2.2 = none) := by
  constructor
  · intro env group w job_id dataset restds qr hst hds hq
    simp [searchTask, hst, hds, hq]
  · intro env group w job_id dataset restds qr hst htop hq
    have hds : (applyInitJobDatasets job_id (dataset :: restds) w).datasets job_id =
        dataset :: restds := by
      simp [applyInitJobDatasets]
    simp [searchTask, hst, htop, hds, hq]

theorem search_task_ordering_c5_witness :
    (searchTask sampleEnv "g" sampleWorld "j").2.1 =
      [Event.getJob "j", Event.topology,
       Event.initJobDatasets "g" "j" ["d1"],
       Event.getNextSearchDataset "g" "j",
       Event.query "r" none "d1",
       Event.updateJobFiles "j" 0,
       Event.agentStartJob "g" "j" "it0",
       Event.agentContinueSearch "g" "j"] ∧
    (searchTask sampleEnv "g" sampleWorld "j").2.2 = none :=
  search_task_ordering_c5.2 sampleEnv "g" sampleWorld "j" "d1" []
    (QueryResult.mk 0 "it0") rfl rfl rfl

/-- C10: the search handler short-circuits only on a cancelled job: on a
failed or done job a delivered search task proceeds exactly as for a
processing job, claiming the next dataset, querying the backend,
incrementing total_files and enqueueing new yara and search tasks. -/
theorem search_task_terminal_not_short_circuited_c10
    (env : Env) (group : String) (w : World) (job_id dataset : String)
    (restds : List String) (qr : QueryResult)
    (hst : (w.jobs job_id).status = "failed" ∨ (w.jobs job_id).status = "done")
    (hds : w.datasets job_id = dataset :: restds)
    (hq : env.queryResult (env.parseCombine (w.jobs job_id).raw_yara)
      (w.jobs job_id).taint dataset = Except.ok qr) :
    (searchTask env group w job_id).2.1 =
      [Event.getJob job_id, Event.getNextSearchDataset group job_id,
       Event.query (env.parseCombine (w.jobs job_id).raw_yara)
         (w.jobs job_id).taint dataset,
       Event.updateJobFiles job_id qr.file_count,
       Event.agentStartJob group job_id qr.iterator,
       Event.agentContinueSearch group job_id] ∧
    (searchTask env group w job_id).2.2 = none ∧
    ((searchTask env group w job_id).1.jobs job_id).total_files =
      (w.jobs job_id).total_files + qr.file_count ∧
    (searchTask env group w job_id).2.1 =
      (searchTask env group
        (setJob job_id (fun j => { j with status := "processing" }) w) job_id).2.1 := by
  have hsts : ((setJob job_id (fun j => { j with status := "processing" }) w).jobs
      job_id).status = "processing" := by simp
  have hry : ((setJob job_id (fun j => { j with status := "processing" }) w).jobs
      job_id).raw_yara = (w.jobs job_id).raw_yara := by simp
  have hta : ((setJob job_id (fun j => { j with status := "processing" }) w).jobs
      job_id).taint = (w.jobs job_id).taint := by simp
  have hdss : (setJob job_id (fun j => { j with status := "processing" }) w).datasets
      job_id = dataset :: restds := by simpa using hds
  rcases hst with hst | hst <;>
    refine ⟨?_, ?_, ?_, ?_⟩ <;>
    simp [searchTask, hst, hds, hq, hsts, hry, hta, hdss,
      applyAgentStartJob, applyUpdateJobFiles]

/-- World whose jobs are failed with one dataset left, for witnesses. -/
def failedWorld : World :=
  { sampleWorld with
      jobs := fun _ => { sampleJob with status := "failed" },
      datasets := fun _ => ["d1"] }

theorem search_task_terminal_not_short_circuited_c10_witness :
    ((searchTask sampleEnv "g" failedWorld "j").2.1 =
      [Event.getJob "j", Event.getNextSearchDataset "g" "j",
       Event.query "r" none "d1",
       Event.updateJobFiles "j" 0,
       Event.agentStartJob "g" "j" "it0",
       Event.agentContinueSearch "g" "j"]) ∧
    (searchTask sampleEnv "g" failedWorld "j").2.2 = none ∧
    ((searchTask sampleEnv "g" failedWorld "j").1.jobs "j").total_files = 0 + 0 ∧
    (searchTask sampleEnv "g" failedWorld "j").2.1 =
      (searchTask sampleEnv "g"
        (setJob "j" (fun j => { j with status := "processing" }) failedWorld) "j").2.1 :=
  search_task_terminal_not_short_circuited_c10 sampleEnv "g" failedWorld "j" "d1" []
    (QueryResult.mk 0 "it0") (Or.inl rfl) rfl rfl

theorem applyAgentFinishJob_jobs_files_processed (id : String) (w : World) :
    ((applyAgentFinishJob id w).jobs id).files_processed =
      (w.jobs id).files_processed := by
  simp only [applyAgentFinishJob, setJob_jobs_same]
  split <;> rfl

/-- C8 amended: for a processing job with 0 < total_files < MIN_BATCH,
nothing yet taken and the iterator holding exactly the total_files
files, the computed batch size is the MIN_BATCH floor of 10, not
total_files; the pop then returns only the available files, the single
scan batch processes them all, the iterator is drained and
agent_finish_job is called right after the batch. -/
theorem small_job_c8_amended (env : Env) (ps : List MetadataPlugin)
    (group : String) (w : World) (job itr : String)
    (hst : (w.jobs job).status = "processing")
    (hproc : (w.jobs job).files_processed = 0)
    (hip : (w.jobs job).files_in_progress = 0)
    (htot : (w.jobs job).total_files = ((w.iters itr).length : Int))
    (hlen1 : 0 < (w.iters itr).length)
    (hlen2 : (w.iters itr).length < 10)
    (hcomp : env.compileYara ((w.jobs job).raw_yara) = Except.ok ()) :
    batchSize (w.jobs job).total_files (w.jobs job).files_processed
      (w.jobs job).files_in_progress = 10 ∧
    (yaraTask env ps group w job itr).2.2 = none ∧
    (yaraTask env ps group w job itr).2.1 =
      [Event.getJob job, Event.pop itr 10,
       Event.jobStartWork job ((w.iters itr).length : Int)] ++
      (scanLoop env ps job (w.iters itr) (applyJobStartWork job
        ((w.iters itr).length : Int)
        { w with iters := fun k => if k = itr then [] else w.iters k })).2.1 ++
      [Event.jobUpdateWork job ((w.iters itr).length : Int)
         (scanLoop env ps job (w.iters itr) (applyJobStartWork job
           ((w.iters itr).length : Int)
           { w with iters := fun k => if k = itr then [] else w.iters k })).2.2,
       Event.getJob job, Event.agentFinishJob job] ∧
    ((yaraTask env ps group w job itr).1.jobs job).files_processed =
      ((w.iters itr).length : Int) ∧
    (yaraTask env ps group w job itr).1.iters itr = [] := by
  have hbatch : batchSize ((w.iters itr).length : Int) 0 0 = 10 :=
    batchSize_zero_taken _ _ _ (by norm_num)
  have hnil : w.iters itr ≠ [] := List.length_pos.mp hlen1
  have htake : (w.iters itr).take 10 = w.iters itr :=
    List.take_of_length_le (le_of_lt hlen2)
  have hdrop : (w.iters itr).drop 10 = [] :=
    List.drop_eq_nil_of_le (le_of_lt hlen2)
  refine ⟨?_, ?_, ?_, ?_, ?_⟩
  · rw [htot, hproc, hip]; exact hbatch
  · simp [yaraTask, finalStatuses, hst, hproc, hip, htot, hbatch, hnil, htake,
      hdrop, executeYara, hcomp, scanLoop_jobs]
  · simp [yaraTask, finalStatuses, hst, hproc, hip, htot, hbatch, hnil, htake,
      hdrop, executeYara, hcomp, scanLoop_jobs]
  · simp [yaraTask, finalStatuses, hst, hproc, hip, htot, hbatch, hnil, htake,
      hdrop, executeYara, hcomp, scanLoop_jobs,
      applyAgentFinishJob_jobs_files_processed]
  · simp [yaraTask, finalStatuses, hst, hproc, hip, htot, hbatch, hnil, htake,
      hdrop, executeYara, hcomp, scanLoop_jobs, scanLoop_iters]

/-- World holding one small processing job of three files, for the
small-job witness. -/
def smallJobWorld : World :=
  { sampleWorld with
      jobs := fun _ => { sampleJob with status := "processing", total_files := 3 },
      iters := fun _ => ["a", "b", "c"] }

theorem small_job_c8_amended_witness :
    batchSize (smallJobWorld.jobs "j").total_files
      (smallJobWorld.jobs "j").files_processed
      (smallJobWorld.jobs "j").files_in_progress = 10 ∧
    (yaraTask sampleEnv [] "g" smallJobWorld "j" "it0").2.2 = none ∧
    ((yaraTask sampleEnv [] "g" smallJobWorld "j" "it0").1.jobs
      "j").files_processed = 3 ∧
    (yaraTask sampleEnv [] "g" smallJobWorld "j" "it0").1.iters "it0" = [] :=
  let h := small_job_c8_amended sampleEnv [] "g" smallJobWorld "j" "it0"
    rfl rfl rfl rfl (by decide) (by decide) rfl
  ⟨h.1, h.2.1, h.2.2.2.1, h.2.2.2.2⟩

/-- C9: on a reload task with unchanged stored version the dispatcher
logs at error level and returns with agent state and store unchanged,
calling neither reload_configuration nor the plugin reinitialization; on
a changed version it calls reload_configuration first and then reloads
the plugins and re-registers, after which the cached version equals the
stored version. -/
theorem reload_protocol_c9 (env : Env) (group : String) (a : AgentSt)
    (w : World) (d : String) :
    (a.plugin_config_version = w.pluginConfigVersion →
      processTask env group a w (AgentTask.mk TaskTypeRELOAD d) =
        Except.ok (a, w, [Event.getPluginConfigVersion, Event.logError])) ∧
    (a.plugin_config_version ≠ w.pluginConfigVersion →
      processTask env group a w (AgentTask.mk TaskTypeRELOAD d) =
        Except.ok (loadPlugins env w, w,
          [Event.getPluginConfigVersion,
           Event.reloadConfiguration a.plugin_config_version,
           Event.getPluginConfigVersion, Event.registerActiveAgent group]) ∧
      (loadPlugins env w).plugin_config_version = w.pluginConfigVersion) := by
  constructor
  · intro h
    simp [processTask, TaskTypeRELOAD, h]
  · intro h
    refine ⟨?_, rfl⟩
    simp [processTask, TaskTypeRELOAD, initializeAgent, h]

/-- C7: on an empty dataset (query reports zero files) the search
handler still enqueues a yara task for the empty iterator; the
subsequent yara task pops an empty file list, skips the scan step
entirely (no job_start_work or job_update_work call), re-reads the job
with status processing and files_processed equal to total_files equal to
zero, calls agent_finish_job and leaves the job done. -/
theorem empty_dataset_to_done_c7 (env : Env) (ps : List MetadataPlugin)
    (group : String) (w : World) (job dataset itr : String)
    (hst : (w.jobs job).status = "new")
    (htot : (w.jobs job).total_files = 0)
    (hproc : (w.jobs job).files_processed = 0)
    (hip : (w.jobs job).files_in_progress = 0)
    (hact : (w.jobs job).active_agents = 0)
    (htop : env.topologyResult = Except.ok [dataset])
    (hq : env.queryResult (env.parseCombine (w.jobs job).raw_yara)
      (w.jobs job).taint dataset = Except.ok (QueryResult.mk 0 itr))
    (hit : w.iters itr = []) :
    (searchTask env group w job).2.2 = none ∧
    (searchTask env group w job).2.1 =
      [Event.getJob job, Event.topology,
       Event.initJobDatasets group job [dataset],
       Event.getNextSearchDataset group job,
       Event.query (env.parseCombine (w.jobs job).raw_yara)
         (w.jobs job).taint dataset,
       Event.updateJobFiles job 0, Event.agentStartJob group job itr,
       Event.agentContinueSearch group job] ∧
    (yaraTask env ps group (searchTask env group w job).1 job itr).2.2 = none ∧
    (yaraTask env ps group (searchTask env group w job).1 job itr).2.1 =
      [Event.getJob job, Event.pop itr 10,
       Event.getJob job, Event.agentFinishJob job] ∧
    ((yaraTask env ps group (searchTask env group w job).1 job itr).1.jobs
        job).status = "done" := by
  have hds : (applyInitJobDatasets job [dataset] w).datasets job = [dataset] := by
    simp [applyInitJobDatasets]
  have hW : (searchTask env group w job).1 =
      applyAgentStartJob job (applyUpdateJobFiles job 0
        { applyInitJobDatasets job [dataset] w with
            datasets := fun k => if k = job then [] else
              (applyInitJobDatasets job [dataset] w).datasets k }) := by
    simp [searchTask, hst, htop, hq, hds]
  have hEst : (((searchTask env group w job).1).jobs job).status = "processing" := by
    rw [hW]; simp [hst]
  have hEtot : (((searchTask env group w job).1).jobs job).total_files = 0 := by
    rw [hW]; simp [hst, htot]
  have hEproc : (((searchTask env group w job).1).jobs job).files_processed = 0 := by
    rw [hW]; simp [hst, hproc]
  have hEip : (((searchTask env group w job).1).jobs job).files_in_progress = 0 := by
    rw [hW]; simp [hst, hip]
  have hEact : (((searchTask env group w job).1).jobs job).active_agents = 1 := by
    rw [hW]; simp [hst, hact]
  have hEit : ((searchTask env group w job).1).iters itr = [] := by
    rw [hW]; simp [hit]
  have hb : batchSize 0 0 0 = 10 := by decide
  refine ⟨?_, ?_, ?_, ?_, ?_⟩
  · simp [searchTask, hst, htop, hq, hds]
  · simp [searchTask, hst, htop, hq, hds]
  · simp [yaraTask, finalStatuses, hEst, hEtot, hEproc, hEip, hEact, hEit, hb]
  · simp [yaraTask, finalStatuses, hEst, hEtot, hEproc, hEip, hEact, hEit, hb]
  · simp [yaraTask, finalStatuses, hEst, hEtot, hEproc, hEip, hEact, hEit, hb,
      applyAgentFinishJob]

theorem empty_dataset_to_done_c7_witness :
    (searchTask sampleEnv "g" sampleWorld "j").2.2 = none ∧
    (searchTask sampleEnv "g" sampleWorld "j").2.1 =
      [Event.getJob "j", Event.topology,
       Event.initJobDatasets "g" "j" ["d1"],
       Event.getNextSearchDataset "g" "j",
       Event.query "r" none "d1",
       Event.updateJobFiles "j" 0, Event.agentStartJob "g" "j" "it0",
       Event.agentContinueSearch "g" "j"] ∧
    (yaraTask sampleEnv [] "g" (searchTask sampleEnv "g" sampleWorld "j").1
      "j" "it0").2.2 = none ∧
    (yaraTask sampleEnv [] "g" (searchTask sampleEnv "g" sampleWorld "j").1
      "j" "it0").2.1 =
      [Event.getJob "j", Event.pop "it0" 10,
       Event.getJob "j", Event.agentFinishJob "j"] ∧
    ((yaraTask sampleEnv [] "g" (searchTask sampleEnv "g" sampleWorld "j").1
        "j" "it0").1.jobs "j").status = "done" :=
  empty_dataset_to_done_c7 sampleEnv [] "g" sampleWorld "j" "d1" "it0"
    rfl rfl rfl rfl rfl rfl rfl rfl

/-- Agent state with cached version one, for the reload witness. -/
def agent1 : AgentSt where
  plugin_config_version := 1
  active_plugins := []

theorem reload_protocol_c9_witness :
    (processTask sampleEnv "g" agent0 sampleWorld (AgentTask.mk "reload" "x") =
      Except.ok (agent0, sampleWorld,
        [Event.getPluginConfigVersion, Event.logError])) ∧
    (processTask sampleEnv "g" agent1 sampleWorld (AgentTask.mk "reload" "x") =
      Except.ok (loadPlugins sampleEnv sampleWorld, sampleWorld,
        [Event.getPluginConfigVersion, Event.reloadConfiguration 1,
         Event.getPluginConfigVersion, Event.registerActiveAgent "g"]) ∧
      (loadPlugins sampleEnv sampleWorld).plugin_config_version =
        sampleWorld.pluginConfigVersion) :=
  ⟨(reload_protocol_c9 sampleEnv "g" agent0 sampleWorld "x").1 rfl,
   (reload_protocol_c9 sampleEnv "g" agent1 sampleWorld "x").2 (by decide)⟩

end Mquery
